import Mathlib

/-!
Verification of the blackhole discard SMTP server against its design
document.  The development shallowly embeds the relevant parts of
`blackhole/control.py` and `blackhole/config.py`: pure helpers become Lean
functions, the mutable interpreter state (module-level `_servers` list, the
singleton cache, log output) becomes explicit state passing, `sys.exit` and
uncaught Python exceptions become explicit result constructors, and the
operating-system surface (bind results, the passwd/group databases, file
readability) is an explicit environment argument.  Machine integers in the
source are plain Python ints, so they are embedded as `Int`/`Nat` with no
wrap-around.
-/

namespace Blackhole

/-! ## Python string primitives

`str.strip`, `str.split('=')`, `str.replace` for quote stripping,
`str.startswith('#')` and `int(...)` conversion, embedded over `List Char`
so that every definition evaluates by kernel reduction. -/

/-- The characters `str.strip` removes: space, tab, newline, carriage
return, vertical tab, form feed. -/
def pyWhitespace (c : Char) : Bool :=
  c = ' ' ∨ c = Char.ofNat 9 ∨ c = Char.ofNat 10 ∨ c = Char.ofNat 13 ∨
  c = Char.ofNat 11 ∨ c = Char.ofNat 12

def pyStripChars (cs : List Char) : List Char :=
  ((cs.dropWhile pyWhitespace).reverse.dropWhile pyWhitespace).reverse

/-- Python `s.strip()`. -/
def pyStrip (s : String) : String := ⟨pyStripChars s.data⟩

def splitChars (sep : Char) (cs : List Char) : List (List Char) :=
  match cs with
  | [] => [[]]
  | c :: rest =>
    let r := splitChars sep rest
    if c = sep then [] :: r
    else match r with
      | [] => [[c]]
      | g :: gs => (c :: g) :: gs

/-- Python `s.split('=')` (`'='` is `Char.ofNat 61`). -/
def pySplitEq (s : String) : List String :=
  (splitChars (Char.ofNat 61) s.data).map (fun g => ⟨g⟩)

/-- Python `s.replace('"', '').replace("'", '')`: drops every double quote
(`Char.ofNat 34`) and single quote (`Char.ofNat 39`). -/
def pyRemoveQuotes (s : String) : String :=
  ⟨s.data.filter (fun c => ¬(c = Char.ofNat 34 ∨ c = Char.ofNat 39))⟩

/-- Python `s.startswith('#')`. -/
def pyStartsHash (s : String) : Bool :=
  match s.data with
  | [] => false
  | c :: _ => c = '#'

/-- A single-quote character as a one-character string, for building the
log messages of `control.py` verbatim. -/
def squote : String := String.singleton (Char.ofNat 39)

def digitsToNat (cs : List Char) : Option Nat :=
  if cs.isEmpty then Option.none
  else if cs.all Char.isDigit then
    some (cs.foldl (fun n c => n * 10 + (c.toNat - 48)) 0)
  else Option.none

/-- Python `int(s)` on a `str`: strips surrounding whitespace, accepts an
optional sign followed by decimal digits; `Option.none` models the
`ValueError` raised on any other input. -/
def pyParseInt (s : String) : Option Int :=
  match pyStripChars s.data with
  | [] => Option.none
  | c :: rest =>
    if c = Char.ofNat 45 then (digitsToNat rest).map (fun n => -(n : Int))
    else if c = Char.ofNat 43 then (digitsToNat rest).map (fun n => (n : Int))
    else (digitsToNat (c :: rest)).map (fun n => (n : Int))

/-! ## Python values and the settings object (`blackhole/config.py`) -/

/-- The values a stored `Config` attribute can hold in the source: `None`
(the class defaults), an `int` (the numeric class defaults `_port = 25`,
`_timeout = 60`), or a `str` (everything assigned by `Config.load`). -/
inductive PyVal
  | none
  | int (n : Int)
  | str (s : String)
  deriving DecidableEq, Repr

/-- Python `int(v)`; `Option.none` models the exception raised when the
conversion fails (`ValueError` on a malformed string, `TypeError` on
`None`). -/
def pyValToInt : PyVal → Option Int
  | PyVal.int n => some n
  | PyVal.str s => pyParseInt s
  | PyVal.none => Option.none

/-- Python truthiness of a stored attribute: `None` is falsy, an `int` is
truthy iff nonzero, a `str` is truthy iff nonempty. -/
def pyTruthy : PyVal → Bool
  | PyVal.none => false
  | PyVal.int n => n != 0
  | PyVal.str s => s ≠ ""

/-- Read a stored attribute as the string it holds.  Attributes compared or
passed as names (`_address`, `_user`, `_group`, the TLS paths) are always
strings in the source once an instance exists. -/
def pyStrOf : PyVal → String
  | PyVal.str s => s
  | _ => ""

/-- Truthiness of the value of the `tls_port` property (`None` or an
`int`): `None` and `0` are falsy. -/
def pyIntTruthy : Option Int → Bool
  | some n => n != 0
  | Option.none => false

/-- `os.EX_OK`. -/
def EX_OK : Nat := 0

/-- `os.EX_USAGE`. -/
def EX_USAGE : Nat := 64

/-- `os.EX_NOPERM`. -/
def EX_NOPERM : Nat := 77

/-- The stored attributes of `blackhole.config.Config`.  Properties
(`address`, `port`, `tls_port`, ...) are functions below; the underscore
fields mirror the underscore attributes of the class. -/
structure Config where
  config_file : PyVal
  _address : PyVal
  _port : PyVal
  _user : PyVal
  _group : PyVal
  _timeout : PyVal
  _tls_port : PyVal
  _tls_key : PyVal
  _tls_cert : PyVal
  _pidfile : PyVal
  deriving DecidableEq, Repr

/-- The class-attribute defaults of `Config` (`config_file = None`,
`_address = '127.0.0.1'`, `_port = 25`, `_timeout = 60`, the rest
`None`). -/
def classDefaults : Config :=
  { config_file := PyVal.none
    _address := PyVal.str "127.0.0.1"
    _port := PyVal.int 25
    _user := PyVal.none
    _group := PyVal.none
    _timeout := PyVal.int 60
    _tls_port := PyVal.none
    _tls_key := PyVal.none
    _tls_cert := PyVal.none
    _pidfile := PyVal.none }

/-- The process environment visible to `config.py` and `control.py`:
`getpass.getuser()`, the name of the group of `os.getgid()`, the group and
passwd databases (`Option.none` models the `KeyError` of
`grp.getgrnam`/`pwd.getpwnam`), and whether `os.setgid`/`os.setuid` on a
given id succeeds (`false` models the `OSError` for lacking privilege). -/
structure SysEnv where
  currentUser : String
  currentGroup : String
  groupDB : String → Option Nat
  userDB : String → Option Nat
  allowSetgid : Nat → Bool
  allowSetuid : Nat → Bool

/-- `Config.__init__(self, config_file="/etc/blackhole.conf")`: stores the
argument and sets `user`/`group` to the current user and group. -/
def configInit (config_file : String) (env : SysEnv) : Config :=
  { classDefaults with
    config_file := PyVal.str config_file
    _user := PyVal.str env.currentUser
    _group := PyVal.str env.currentGroup }

/-- `Singleton.__call__`: the metaclass keeps a cache keyed by the class;
the state argument is the cache entry for `Config`.  Only the first call
constructs an instance; every later call returns the cached one and
ignores its arguments. -/
def singletonCall (instances : Option Config) (config_file : String)
    (env : SysEnv) : Config × Option Config :=
  match instances with
  | Option.none =>
    let c := configInit config_file env
    (c, some c)
  | some c => (c, some c)

/-- The filesystem surface used by `config.py` and `control.py`:
`os.access(path, os.R_OK)`, `open(path).readlines()` (the embedded lines
carry their text; trailing newlines are immaterial because every line is
stripped), and `os.path.exists`. -/
structure FileSys where
  readable : String → Bool
  lines : String → List String
  pathExists : PyVal → Bool

/-- Python exceptions that the embedded `config.py` code can raise. -/
inductive PyError
  | ioError (msg : String)
  | configException (msg : String)
  | valueError
  deriving DecidableEq, Repr

/-- Result of `Config.load`: either the returned instance, or a raised
exception together with the instance state at the moment of the raise. -/
inductive LoadResult
  | ok (cfg : Config)
  | raised (e : PyError) (cfg : Config)
  deriving DecidableEq, Repr

/-- `setattr(self, "_" + key, value)` for the settings the class declares.
A key outside this list creates an attribute that no property reads, so it
is dropped from the embedded state. -/
def applySetting (cfg : Config) (key : String) (value : String) : Config :=
  if key = "address" then { cfg with _address := PyVal.str value }
  else if key = "port" then { cfg with _port := PyVal.str value }
  else if key = "user" then { cfg with _user := PyVal.str value }
  else if key = "group" then { cfg with _group := PyVal.str value }
  else if key = "timeout" then { cfg with _timeout := PyVal.str value }
  else if key = "tls_port" then { cfg with _tls_port := PyVal.str value }
  else if key = "tls_key" then { cfg with _tls_key := PyVal.str value }
  else if key = "tls_cert" then { cfg with _tls_cert := PyVal.str value }
  else if key = "pidfile" then { cfg with _pidfile := PyVal.str value }
  else cfg

/-- One iteration of the `Config.load` loop: strip the line, skip comments,
split on `=` (the tuple unpacking raises `ValueError` unless the split has
exactly two parts, and the loop catches it with `continue`), strip key and
value, drop quotes from the value, store the attribute. -/
def loadLine (cfg : Config) (raw : String) : Config :=
  let line := pyStrip raw
  if pyStartsHash line then cfg
  else
    match pySplitEq line with
    | [k, v] => applySetting cfg (pyStrip k) (pyRemoveQuotes (pyStrip v))
    | _ => cfg

/-- `Config.load`: returns `self` untouched when `config_file` is `None`,
raises `IOError` before touching any attribute when the file is not
readable, otherwise folds the parsing loop over the lines. -/
def Config.load (cfg : Config) (fs : FileSys) : LoadResult :=
  match cfg.config_file with
  | PyVal.none => LoadResult.ok cfg
  | cf =>
    if fs.readable (pyStrOf cf) then
      LoadResult.ok ((fs.lines (pyStrOf cf)).foldl loadLine cfg)
    else
      LoadResult.raised
        (PyError.ioError "Config file does not exist or is not readable.") cfg

/-- The `port` property: `int(self._port)`. -/
def Config.port (cfg : Config) : Option Int := pyValToInt cfg._port

/-- The `tls_port` property: `None` when `_tls_port is None`, otherwise
`int(self._tls_port)`.  The outer `Option.none` models the `ValueError`
raised by the conversion; `some Option.none` is the Python value `None`. -/
def Config.tls_port (cfg : Config) : Option (Option Int) :=
  match cfg._tls_port with
  | PyVal.none => some Option.none
  | v => (pyValToInt v).map some

/-- `Config.test_tls_port`.  `Option.none` means the check passes.  When
`int(self.tls_port)` raises `ValueError`, the `except ValueError` handler
evaluates `'{} is not a valid port number.'.format(self.tls_port)`, and the
property re-runs the failing conversion, so the handler itself raises
`ValueError` and no `ConfigException` is produced. -/
def Config.test_tls_port (cfg : Config) : Option PyError :=
  match cfg._tls_port with
  | PyVal.none => Option.none
  | v =>
    match pyValToInt v with
    | Option.none => some PyError.valueError
    | some tp =>
      match pyValToInt cfg._port with
      | Option.none => some PyError.valueError
      | some p =>
        if p = tp then
          some (PyError.configException
            "SMTP and SMTP/TLS ports must be different.")
        else Option.none

/-- `Config.test_tls_settings`: all-or-none check on the TLS settings.
`port` is the truthiness of the `tls_port` value (`0 == False` in Python),
`cert`/`key` are `os.access(path, os.R_OK)` when the path is truthy and
`False` otherwise.  The first evaluation of the `tls_port` property can
raise `ValueError`, which propagates. -/
def Config.test_tls_settings (cfg : Config) (fs : FileSys) : Option PyError :=
  match cfg.tls_port with
  | Option.none => some PyError.valueError
  | some tpo =>
    let port : Bool := pyIntTruthy tpo
    let cert : Bool :=
      if pyTruthy cfg._tls_cert then fs.readable (pyStrOf cfg._tls_cert)
      else false
    let key : Bool :=
      if pyTruthy cfg._tls_key then fs.readable (pyStrOf cfg._tls_key)
      else false
    if port = false ∧ cert = false ∧ key = false then Option.none
    else if port && cert && key then Option.none
    else
      some (PyError.configException
        "To use TLS you must supply a port, certificate file and key file.")

/-! ## TLS context construction (`create_server`, `use_tls=True`) -/

/-- The `ssl` option flags relevant to the server context. -/
inductive SSLOption
  | OP_ALL
  | OP_NO_SSLv2
  | OP_NO_SSLv3
  | OP_NO_COMPRESSION
  | OP_CIPHER_SERVER_PREFERENCE
  | OP_SINGLE_DH_USE
  | OP_SINGLE_ECDH_USE
  deriving DecidableEq, Repr

/-- A TLS server context: the option flags currently set (the `options`
bitmask embedded as the list of set flags) and the certificate/key pair
loaded by `load_cert_chain`. -/
structure SSLContext where
  options : List SSLOption
  certChain : Option (PyVal × PyVal)
  deriving DecidableEq, Repr

/-- `ssl.create_default_context(ssl.Purpose.CLIENT_AUTH)`: the stdlib
helper returns a server-side context whose options include `OP_ALL`,
`OP_NO_SSLv2`, `OP_NO_SSLv3`, `OP_NO_COMPRESSION`,
`OP_CIPHER_SERVER_PREFERENCE`, `OP_SINGLE_DH_USE` and
`OP_SINGLE_ECDH_USE`. -/
def create_default_context : SSLContext :=
  { options :=
      [SSLOption.OP_ALL, SSLOption.OP_NO_SSLv2, SSLOption.OP_NO_SSLv3,
       SSLOption.OP_NO_COMPRESSION, SSLOption.OP_CIPHER_SERVER_PREFERENCE,
       SSLOption.OP_SINGLE_DH_USE, SSLOption.OP_SINGLE_ECDH_USE]
    certChain := Option.none }

/-- `ctx.options &= ~opt`: clear one flag from the options bitmask. -/
def clearOption (ctx : SSLContext) (opt : SSLOption) : SSLContext :=
  { ctx with options := ctx.options.filter (fun o => o ≠ opt) }

/-- The TLS branch of `create_server`:
`ctx = ssl.create_default_context(ssl.Purpose.CLIENT_AUTH)`,
`ctx.load_cert_chain(config.tls_cert, config.tls_key)`,
`ctx.options &= ~ssl.OP_NO_SSLv2`, `ctx.options &= ~ssl.OP_NO_SSLv3`. -/
def buildTlsContext (cfg : Config) : SSLContext :=
  let ctx := create_default_context
  let ctx := { ctx with certChain := some (cfg._tls_cert, cfg._tls_key) }
  let ctx := clearOption ctx SSLOption.OP_NO_SSLv2
  clearOption ctx SSLOption.OP_NO_SSLv3

/-! ## Socket binding and server startup (`blackhole/control.py`) -/

/-- Why a `sock.bind` call failed; in the source every cause arrives as the
same caught `socket.error`. -/
inductive BindFailure
  | addressInUse
  | permissionDenied
  | genericOSError
  deriving DecidableEq, Repr

/-- The OS bind surface: the outcome of `sock.bind((address, port))` for a
given address and port; `Option.none` is success. -/
abbrev BindEnv := PyVal → Int → Option BindFailure

/-- One entry of the module-level `_servers` list: the bound listening
socket (its address and port) and the TLS context passed to
`loop.create_server` (`None` for a plain listener). -/
structure Listener where
  address : PyVal
  port : Int
  tlsContext : Option SSLContext
  deriving DecidableEq, Repr

/-- The log lines `control.py` emits at error level or above (debug-level
logging is not modelled).  `cannotBindToPort p` is
`logger.fatal('Cannot bind to port %s.', port)`. -/
inductive LogEvent
  | cannotBindToPort (port : Int)
  deriving DecidableEq, Repr

/-- The mutable module state of `control.py`: the `_servers` list and the
fatal log output so far. -/
structure ProcState where
  servers : List Listener
  logs : List LogEvent
  deriving DecidableEq, Repr

def initialState : ProcState := { servers := [], logs := [] }

/-- Result of running a piece of `control.py`: normal return with the new
state, `sys.exit(code)` with the state at the exit, or an uncaught Python
exception with the state at the raise.  Both `exited` and `raised`
terminate the process. -/
inductive StepResult
  | ok (st : ProcState)
  | exited (code : Nat) (st : ProcState)
  | raised (st : ProcState)
  deriving DecidableEq, Repr

/-- `create_server(use_tls)`: read `config.tls_port` or `config.port`
(evaluating the property, whose `int(...)` can raise), bind the socket, on
`socket.error` log `Cannot bind to port %s.` and `sys.exit(os.EX_NOPERM)`,
otherwise build the TLS context when `use_tls` and append the server to
`_servers`.  `some Option.none` for the port is the Python value `None`,
on which `bind` would raise; `start_servers` never reaches `create_server`
with it. -/
def create_server (use_tls : Bool) (cfg : Config) (env : BindEnv)
    (st : ProcState) : StepResult :=
  let portRes : Option (Option Int) :=
    if use_tls then cfg.tls_port else (cfg.port).map some
  match portRes with
  | Option.none => StepResult.raised st
  | some Option.none => StepResult.raised st
  | some (some p) =>
    match env cfg._address p with
    | some _ =>
      StepResult.exited EX_NOPERM
        { st with logs := st.logs ++ [LogEvent.cannotBindToPort p] }
    | Option.none =>
      let ctx := if use_tls then some (buildTlsContext cfg) else Option.none
      StepResult.ok
        { st with
          servers := st.servers ++
            [{ address := cfg._address, port := p, tlsContext := ctx }] }

/-- `start_servers`: `create_server()` for the plain listener, then
`create_server(use_tls=True)` when
`config.tls_port and config.tls_cert and config.tls_key` is truthy
(evaluating the `tls_port` property can raise). -/
def start_servers (cfg : Config) (env : BindEnv) : StepResult :=
  match create_server false cfg env initialState with
  | StepResult.ok st =>
    match cfg.tls_port with
    | Option.none => StepResult.raised st
    | some tpo =>
      if pyIntTruthy tpo && pyTruthy cfg._tls_cert && pyTruthy cfg._tls_key
      then create_server true cfg env st
      else StepResult.ok st
  | r => r

/-- The listener descriptors still open in the system once the startup call
has returned.  A process that terminated (`sys.exit` or an uncaught
exception) holds no descriptors: the operating system releases every file
descriptor of a terminated process. -/
def openDescriptorsAfter : StepResult → List Listener
  | StepResult.ok st => st.servers
  | StepResult.exited _ _ => []
  | StepResult.raised _ => []

/-- The plain (address, port) pairs the configuration requests: the single
`(config.address, config.port)` endpoint, when the port value is
well-formed. -/
def plainEndpoints (cfg : Config) : List (PyVal × Int) :=
  match cfg.port with
  | some p => [(cfg._address, p)]
  | Option.none => []

/-- The TLS (address, port) pairs the configuration requests: the single
`(config.address, config.tls_port)` endpoint when a truthy TLS port is
configured, none otherwise. -/
def tlsEndpoints (cfg : Config) : List (PyVal × Int) :=
  match cfg.tls_port with
  | some (some tp) => if tp != 0 then [(cfg._address, tp)] else []
  | _ => []

/-! ## Shutdown (`stop_servers`) -/

/-- The externally observable steps `stop_servers` performs, in order. -/
inductive ShutdownEvent
  | closeServer (l : Listener)
  | waitClosed (l : Listener)
  | loopClose
  | removePidfile (path : PyVal)
  | exitProcess (code : Nat)
  deriving DecidableEq, Repr

/-- The `for server in _servers` loop: `server.close()` then
`loop.run_until_complete(server.wait_closed())` for each server, in list
order. -/
def closeEvents : List Listener → List ShutdownEvent
  | [] => []
  | s :: rest =>
    ShutdownEvent.closeServer s :: ShutdownEvent.waitClosed s ::
      closeEvents rest

/-- `stop_servers`: close and await every server, `loop.close()`, remove
the pidfile when `os.path.exists(config.pidfile)`, then
`sys.exit(os.EX_OK)`. -/
def stop_servers (servers : List Listener) (cfg : Config) (fs : FileSys) :
    List ShutdownEvent :=
  closeEvents servers ++ [ShutdownEvent.loopClose] ++
    (if fs.pathExists cfg._pidfile then
      [ShutdownEvent.removePidfile cfg._pidfile]
    else []) ++
    [ShutdownEvent.exitProcess EX_OK]

/-! ## Privilege dropping (`setgid`, `setuid`) -/

/-- Result of `setgid`/`setuid`: skipped because the configured account is
the current one, privilege dropped to the given id, or process terminated
by `sys.exit` after logging the given error line. -/
inductive PrivResult
  | skipped
  | droppedTo (id : Nat)
  | exited (code : Nat) (log : String)
  deriving DecidableEq, Repr

/-- `setgid`: skip when `config.group` equals the current group name,
otherwise `os.setgid(grp.getgrnam(config.group).gr_gid)`; on `KeyError`
log that the group does not exist and `sys.exit(os.EX_USAGE)`, on
`OSError` log the missing permission and `sys.exit(os.EX_NOPERM)`. -/
def setgid (cfg : Config) (env : SysEnv) : PrivResult :=
  let g := pyStrOf cfg._group
  if g = env.currentGroup then PrivResult.skipped
  else
    match env.groupDB g with
    | Option.none =>
      PrivResult.exited EX_USAGE
        ("Group " ++ squote ++ g ++ squote ++ " does not exist")
    | some gid =>
      if env.allowSetgid gid then PrivResult.droppedTo gid
      else
        PrivResult.exited EX_NOPERM
          ("You do not have permission to switch to group " ++ squote ++ g
            ++ squote)

/-- `setuid`: skip when `config.user` equals `getpass.getuser()`, otherwise
`os.setuid(pwd.getpwnam(config.user).pw_uid)`; on `KeyError` log that the
user does not exist and `sys.exit(os.EX_USAGE)`, on `OSError` log the
missing permission and `sys.exit(os.EX_NOPERM)`. -/
def setuid (cfg : Config) (env : SysEnv) : PrivResult :=
  let u := pyStrOf cfg._user
  if u = env.currentUser then PrivResult.skipped
  else
    match env.userDB u with
    | Option.none =>
      PrivResult.exited EX_USAGE
        ("User " ++ squote ++ u ++ squote ++ " does not exist")
    | some uid =>
      if env.allowSetuid uid then PrivResult.droppedTo uid
      else
        PrivResult.exited EX_NOPERM
          ("You do not have permission to switch to user " ++ squote ++ u
            ++ squote)

/-! ## The message disposition engine -/

/-- Modelled from the spec: the SMTP session engine (`blackhole/smtp.py`)
is not among the source files, so the per-transaction disposition of §4.3
is taken from the design text: on the DATA terminator the engine computes
the disposition from the configured mode, `accept` always giving
`ACCEPTED`, `bounce` always giving `BOUNCED`, `random` a fair
per-transaction coin. -/
inductive Mode
  | accept
  | bounce
  | random
  deriving DecidableEq, Repr

/-- Modelled from the spec: the accept/reject outcome of one completed
mail transaction. -/
inductive Disposition
  | accepted
  | bounced
  deriving DecidableEq, Repr

/-- Modelled from the spec: the disposition computed at the DATA
terminator; `coin` is the pseudo-random draw used only in `random`
mode. -/
def computeDisposition (m : Mode) (coin : Bool) : Disposition :=
  match m with
  | Mode.accept => Disposition.accepted
  | Mode.bounce => Disposition.bounced
  | Mode.random => if coin then Disposition.accepted else Disposition.bounced

/-- Modelled from the spec: the SMTP reply code for a disposition, an
acceptance (2xx success) reply for `ACCEPTED` and an SMTP
permanent-failure (5xx) reply for `BOUNCED`. -/
def dispositionReply : Disposition → Nat
  | Disposition.accepted => 250
  | Disposition.bounced => 550

/-- Modelled from the spec: the final replies of a connection whose
completed DATA transactions drew the given coins, each transaction
independent. -/
def transactionReplies (m : Mode) (coins : List Bool) : List Nat :=
  coins.map (fun c => dispositionReply (computeDisposition m c))

/-- 2xx success reply. -/
def isSuccessReply (r : Nat) : Bool := 200 ≤ r && r < 300

/-- 5xx permanent-failure reply. -/
def isPermanentFailureReply (r : Nat) : Bool := 500 ≤ r && r < 600

/-! ## Concrete instances used by witnesses and counterexamples -/

/-- A fully TLS-enabled configuration, as it stands after `Config.load` on
a file with `tls_port`, `tls_cert` and `tls_key` lines. -/
def tlsTestConfig : Config :=
  { classDefaults with
    config_file := PyVal.str "/etc/blackhole.conf"
    _user := PyVal.str "blackhole"
    _group := PyVal.str "blackhole"
    _tls_port := PyVal.str "465"
    _tls_cert := PyVal.str "/etc/ssl/blackhole.crt"
    _tls_key := PyVal.str "/etc/ssl/blackhole.key"
    _pidfile := PyVal.str "/var/run/blackhole.pid" }

/-- A filesystem on which every path is readable and present. -/
def fsAllReadable : FileSys :=
  { readable := fun _ => true
    lines := fun _ => []
    pathExists := fun _ => true }

/-- A filesystem on which no path is readable or present. -/
def fsNothingReadable : FileSys :=
  { readable := fun _ => false
    lines := fun _ => []
    pathExists := fun _ => false }

/-- A bind surface on which every bind succeeds. -/
def envBindOk : BindEnv := fun _ _ => Option.none

/-- A system environment whose databases are empty and where no privilege
switch is permitted. -/
def sysEnvBare : SysEnv :=
  { currentUser := "root"
    currentGroup := "root"
    groupDB := fun _ => Option.none
    userDB := fun _ => Option.none
    allowSetgid := fun _ => false
    allowSetuid := fun _ => false }

/-! ## Helper lemmas -/

theorem closeEvents_mem (l : Listener) (ls : List Listener) (h : l ∈ ls) :
    ShutdownEvent.closeServer l ∈ closeEvents ls ∧
    ShutdownEvent.waitClosed l ∈ closeEvents ls := by
  induction ls with
  | nil => cases h
  | cons s rest ih =>
    rcases List.mem_cons.mp h with h | h
    · subst h
      simp [closeEvents]
    · have hr := ih h
      simp [closeEvents]
      tauto

/-! ## Claims -/

/-- C1: the claim states that the TLS context built by `create_server` has
`OP_NO_SSLv2` and `OP_NO_SSLv3` set.  The source executes
`ctx.options &= ~ssl.OP_NO_SSLv2` and `ctx.options &= ~ssl.OP_NO_SSLv3`,
which clears the two flags `ssl.create_default_context` had set: for every
configuration, the context of the TLS listener has neither option set, so
SSLv2 and SSLv3 are re-enabled, against the claim and the docstring of
`create_server` itself. -/
theorem C1_tls_context_clears_sslv2_sslv3 (cfg : Config) :
    SSLOption.OP_NO_SSLv2 ∈ create_default_context.options ∧
    SSLOption.OP_NO_SSLv3 ∈ create_default_context.options ∧
    SSLOption.OP_NO_SSLv2 ∉ (buildTlsContext cfg).options ∧
    SSLOption.OP_NO_SSLv3 ∉ (buildTlsContext cfg).options := by
  refine ⟨by decide, by decide, ?_, ?_⟩ <;>
    simp [buildTlsContext, clearOption, create_default_context]

/-- C2: whenever the bind of a configured endpoint fails (on the plain
endpoint, or on the TLS endpoint when the TLS listener is attempted),
`start_servers` terminates the process with `sys.exit(os.EX_NOPERM)`, that
is exit status 77, and after the exit no listener descriptor remains
open. -/
theorem C2_bind_failure_exits_77 (cfg : Config) (env : BindEnv) (p : Int)
    (tpo : Option Int) (hp : cfg.port = some p) (ht : cfg.tls_port = some tpo)
    (hfail : env cfg._address p ≠ Option.none ∨
      ((pyIntTruthy tpo && pyTruthy cfg._tls_cert &&
          pyTruthy cfg._tls_key) = true ∧
        ∃ tp, tpo = some tp ∧ env cfg._address tp ≠ Option.none)) :
    ∃ st, start_servers cfg env = StepResult.exited EX_NOPERM st ∧
      openDescriptorsAfter (start_servers cfg env) = [] ∧ EX_NOPERM = 77 := by
  cases henv : env cfg._address p with
  | some cause =>
    refine ⟨⟨[], [LogEvent.cannotBindToPort p]⟩, ?_, ?_, rfl⟩ <;>
      simp [start_servers, create_server, hp, henv, initialState,
        openDescriptorsAfter]
  | none =>
    rcases hfail with hfail | ⟨hguard, tp, htp, hfail⟩
    · exact absurd henv hfail
    · cases henv2 : env cfg._address tp with
      | none => exact absurd henv2 hfail
      | some cause =>
        subst htp
        refine ⟨⟨[⟨cfg._address, p, Option.none⟩],
            [LogEvent.cannotBindToPort tp]⟩, ?_, ?_, rfl⟩ <;>
          simp [start_servers, create_server, hp, ht, henv, henv2, hguard,
            initialState, openDescriptorsAfter]

/-- C2 witness: on a fully TLS-enabled configuration whose every bind
fails, startup exits with status 77 and leaves no descriptor open. -/
theorem C2_witness :
    ∃ st, start_servers tlsTestConfig (fun _ _ => some BindFailure.addressInUse) =
        StepResult.exited EX_NOPERM st ∧
      openDescriptorsAfter
        (start_servers tlsTestConfig (fun _ _ => some BindFailure.addressInUse)) =
        [] ∧ EX_NOPERM = 77 :=
  C2_bind_failure_exits_77 tlsTestConfig
    (fun _ _ => some BindFailure.addressInUse) 25 (some 465) rfl (by decide)
    (Or.inl (by decide))

/-- C3: for a configuration that passes the upstream TLS settings
validation, and binds that all succeed, `start_servers` produces exactly
one listener per requested plain (address, port) pair and one per
requested TLS pair, with the TLS listener and only it carrying a TLS
context. -/
theorem C3_listener_per_endpoint (cfg : Config) (env : BindEnv)
    (fs : FileSys) (p : Int) (hp : cfg.port = some p)
    (hval : cfg.test_tls_settings fs = Option.none)
    (hbind : ∀ a q, env a q = Option.none) :
    ∃ st, start_servers cfg env = StepResult.ok st ∧
      st.servers.map (fun l => (l.address, l.port, l.tlsContext.isSome)) =
        (plainEndpoints cfg).map (fun e => (e.1, e.2, false)) ++
          (tlsEndpoints cfg).map (fun e => (e.1, e.2, true)) ∧
      st.servers.length =
        (plainEndpoints cfg).length + (tlsEndpoints cfg).length := by
  cases htp : cfg.tls_port with
  | none =>
    exfalso
    rw [Config.test_tls_settings, htp] at hval
    exact Option.noConfusion hval
  | some tpo =>
    rw [Config.test_tls_settings, htp] at hval
    cases tpo with
    | none =>
      refine ⟨⟨[⟨cfg._address, p, Option.none⟩], []⟩, ?_, ?_, ?_⟩ <;>
        simp [start_servers, create_server, hp, htp, hbind, initialState,
          pyIntTruthy, plainEndpoints, tlsEndpoints]
    | some tp =>
      by_cases h0 : (tp != 0) = true
      · have hcert : pyTruthy cfg._tls_cert = true ∧
            pyTruthy cfg._tls_key = true := by
          simp [pyIntTruthy, h0] at hval
          constructor
          · by_contra hc
            simp [hc] at hval
          · by_contra hc
            simp [hc] at hval
        refine ⟨⟨[⟨cfg._address, p, Option.none⟩,
            ⟨cfg._address, tp, some (buildTlsContext cfg)⟩], []⟩,
          ?_, ?_, ?_⟩ <;>
          simp [start_servers, create_server, hp, htp, hbind, initialState,
            pyIntTruthy, h0, hcert.1, hcert.2, plainEndpoints, tlsEndpoints]
      · refine ⟨⟨[⟨cfg._address, p, Option.none⟩], []⟩, ?_, ?_, ?_⟩ <;>
          simp [start_servers, create_server, hp, htp, hbind, initialState,
            pyIntTruthy, h0, plainEndpoints, tlsEndpoints]

/-- C3 witness: a validated plain+TLS configuration with all binds
succeeding yields exactly the two requested listeners. -/
theorem C3_witness :
    ∃ st, start_servers tlsTestConfig envBindOk = StepResult.ok st ∧
      st.servers.map (fun l => (l.address, l.port, l.tlsContext.isSome)) =
        (plainEndpoints tlsTestConfig).map (fun e => (e.1, e.2, false)) ++
          (tlsEndpoints tlsTestConfig).map (fun e => (e.1, e.2, true)) ∧
      st.servers.length =
        (plainEndpoints tlsTestConfig).length +
          (tlsEndpoints tlsTestConfig).length :=
  C3_listener_per_endpoint tlsTestConfig envBindOk fsAllReadable 25 rfl
    (by decide) (fun _ _ => rfl)

/-- C4: `stop_servers` closes every listener of the server set and awaits
each close, and afterwards removes the pidfile as the final step before
the process exits with `os.EX_OK`, the success status 0. -/
theorem C4_stop_closes_all_then_removes_pidfile (servers : List Listener)
    (cfg : Config) (fs : FileSys)
    (hpid : fs.pathExists cfg._pidfile = true) :
    ∃ pre, stop_servers servers cfg fs =
        pre ++ [ShutdownEvent.removePidfile cfg._pidfile,
          ShutdownEvent.exitProcess EX_OK] ∧
      (∀ l ∈ servers, ShutdownEvent.closeServer l ∈ pre ∧
        ShutdownEvent.waitClosed l ∈ pre) ∧
      EX_OK = 0 := by
  refine ⟨closeEvents servers ++ [ShutdownEvent.loopClose], ?_, ?_, rfl⟩
  · simp [stop_servers, hpid]
  · intro l hl
    have h := closeEvents_mem l servers hl
    exact ⟨List.mem_append_left _ h.1, List.mem_append_left _ h.2⟩

/-- A concrete plain listener for the shutdown witness. -/
def listenerPlain : Listener := ⟨PyVal.str "127.0.0.1", 25, Option.none⟩

/-- C4 witness: shutdown of a one-listener server set with an existing
pidfile. -/
theorem C4_witness :
    ∃ pre,
      stop_servers [listenerPlain] tlsTestConfig fsAllReadable =
        pre ++ [ShutdownEvent.removePidfile tlsTestConfig._pidfile,
          ShutdownEvent.exitProcess EX_OK] ∧
      (∀ l ∈ [listenerPlain],
        ShutdownEvent.closeServer l ∈ pre ∧
        ShutdownEvent.waitClosed l ∈ pre) ∧
      EX_OK = 0 :=
  C4_stop_closes_all_then_removes_pidfile [listenerPlain] tlsTestConfig
    fsAllReadable rfl

/-- C5 counterexample: the claim states that the three bind-failure causes
are distinguishable in the resulting error/exit behaviour.  On the same
configuration and state, a bind failing with address-in-use, with
permission-denied and with a generic OS error produce identical results
(the same log line and the same `sys.exit(os.EX_NOPERM)`), although the
causes differ. -/
theorem C5_counterexample :
    create_server false tlsTestConfig
        (fun _ _ => some BindFailure.addressInUse) initialState =
      create_server false tlsTestConfig
        (fun _ _ => some BindFailure.permissionDenied) initialState ∧
    create_server false tlsTestConfig
        (fun _ _ => some BindFailure.permissionDenied) initialState =
      create_server false tlsTestConfig
        (fun _ _ => some BindFailure.genericOSError) initialState ∧
    BindFailure.addressInUse ≠ BindFailure.permissionDenied ∧
    BindFailure.permissionDenied ≠ BindFailure.genericOSError := by
  exact ⟨rfl, rfl, by decide, by decide⟩

/-- C5 amended: every bind failure, whatever its cause, produces one and
the same behaviour: the log line `Cannot bind to port %s.` and process
exit with `os.EX_NOPERM` (77); the causes are not distinguished. -/
theorem C5_all_bind_failures_identical (use_tls : Bool) (cfg : Config)
    (env : BindEnv) (p : Int) (cause : BindFailure) (st : ProcState)
    (hp : (if use_tls then cfg.tls_port else (cfg.port).map some) =
      some (some p))
    (hc : env cfg._address p = some cause) :
    create_server use_tls cfg env st =
      StepResult.exited EX_NOPERM
        { st with logs := st.logs ++ [LogEvent.cannotBindToPort p] } ∧
    EX_NOPERM = 77 := by
  refine ⟨?_, rfl⟩
  rw [create_server, hp]
  simp [hc]

/-- C5 witness for the amended claim: an address-in-use failure on the
plain listener logs the bind failure and exits with 77. -/
theorem C5_witness :
    create_server false tlsTestConfig
        (fun _ _ => some BindFailure.addressInUse) initialState =
      StepResult.exited EX_NOPERM
        { initialState with
          logs := initialState.logs ++ [LogEvent.cannotBindToPort 25] } ∧
    EX_NOPERM = 77 :=
  C5_all_bind_failures_identical false tlsTestConfig
    (fun _ _ => some BindFailure.addressInUse) 25 BindFailure.addressInUse
    initialState (by decide) rfl

/-- C6: when the configured group (resp. user) does not exist, `setgid`
(resp. `setuid`) logs an error naming the account and exits with
`os.EX_USAGE` (64), and when it exists but cannot be assumed, logs the
missing permission and exits with `os.EX_NOPERM` (77) — both non-zero;
when the configured group (resp. user) equals the current one, the call
makes no change and does not exit. -/
theorem C6_privilege_drop_errors (cfg : Config) (env : SysEnv) :
    (pyStrOf cfg._group = env.currentGroup →
      setgid cfg env = PrivResult.skipped) ∧
    (pyStrOf cfg._group ≠ env.currentGroup →
      env.groupDB (pyStrOf cfg._group) = Option.none →
      setgid cfg env = PrivResult.exited EX_USAGE
          ("Group " ++ squote ++ pyStrOf cfg._group ++ squote ++
            " does not exist") ∧
        EX_USAGE ≠ 0) ∧
    (∀ gid : Nat, pyStrOf cfg._group ≠ env.currentGroup →
      env.groupDB (pyStrOf cfg._group) = some gid →
      env.allowSetgid gid = false →
      setgid cfg env = PrivResult.exited EX_NOPERM
          ("You do not have permission to switch to group " ++ squote ++
            pyStrOf cfg._group ++ squote) ∧
        EX_NOPERM ≠ 0) ∧
    (pyStrOf cfg._user = env.currentUser →
      setuid cfg env = PrivResult.skipped) ∧
    (pyStrOf cfg._user ≠ env.currentUser →
      env.userDB (pyStrOf cfg._user) = Option.none →
      setuid cfg env = PrivResult.exited EX_USAGE
          ("User " ++ squote ++ pyStrOf cfg._user ++ squote ++
            " does not exist") ∧
        EX_USAGE ≠ 0) ∧
    (∀ uid : Nat, pyStrOf cfg._user ≠ env.currentUser →
      env.userDB (pyStrOf cfg._user) = some uid →
      env.allowSetuid uid = false →
      setuid cfg env = PrivResult.exited EX_NOPERM
          ("You do not have permission to switch to user " ++ squote ++
            pyStrOf cfg._user ++ squote) ∧
        EX_NOPERM ≠ 0) := by
  refine ⟨?_, ?_, ?_, ?_, ?_, ?_⟩
  · intro h
    simp [setgid, h]
  · intro h hdb
    refine ⟨?_, by decide⟩
    simp [setgid, h, hdb]
  · intro gid h hdb hperm
    refine ⟨?_, by decide⟩
    simp [setgid, h, hdb, hperm]
  · intro h
    simp [setuid, h]
  · intro h hdb
    refine ⟨?_, by decide⟩
    simp [setuid, h, hdb]
  · intro uid h hdb hperm
    refine ⟨?_, by decide⟩
    simp [setuid, h, hdb, hperm]

/-- C6 witness: with the configured group `blackhole` absent from the
group database and different from the current group, `setgid` logs the
group name and exits with the non-zero status 64. -/
theorem C6_witness :
    setgid tlsTestConfig sysEnvBare = PrivResult.exited EX_USAGE
        ("Group " ++ squote ++ pyStrOf tlsTestConfig._group ++ squote ++
          " does not exist") ∧
      EX_USAGE ≠ 0 :=
  (C6_privilege_drop_errors tlsTestConfig sysEnvBare).2.1 (by decide) rfl

/-- C7: the claim states that `test_tls_port` raises `ConfigException`
exactly when the TLS port is not a valid integer or equals the plain port.
For a non-integer TLS port the `except ValueError` handler re-evaluates
the `tls_port` property while formatting the message, so `ValueError`
escapes instead and `ConfigException` is never raised; the equal-ports
case and the no-TLS-port case behave as claimed. -/
theorem C7_invalid_tls_port_raises_valueerror :
    Config.test_tls_port { classDefaults with _tls_port := PyVal.str "abc" } =
      some PyError.valueError ∧
    (∀ msg : String, PyError.valueError ≠ PyError.configException msg) ∧
    Config.test_tls_port { classDefaults with _tls_port := PyVal.str "25" } =
      some (PyError.configException
        "SMTP and SMTP/TLS ports must be different.") ∧
    Config.test_tls_port classDefaults = Option.none := by
  exact ⟨by decide, fun msg h => PyError.noConfusion h, by decide, rfl⟩

/-- C8 (modelled from the spec, `blackhole/smtp.py` being absent from the
sources): for every connection and every sequence of completed DATA
transactions, mode `accept` always replies with a 2xx acceptance and mode
`bounce` always with a 5xx permanent failure. -/
theorem C8_disposition_by_mode (coins : List Bool) :
    (transactionReplies Mode.accept coins).all isSuccessReply = true ∧
    (transactionReplies Mode.bounce coins).all isPermanentFailureReply =
      true ∧
    (∀ coin : Bool,
      computeDisposition Mode.accept coin = Disposition.accepted) ∧
    (∀ coin : Bool,
      computeDisposition Mode.bounce coin = Disposition.bounced) := by
  refine ⟨?_, ?_, fun _ => rfl, fun _ => rfl⟩ <;>
    simp [transactionReplies, computeDisposition, dispositionReply,
      isSuccessReply, isPermanentFailureReply, List.all_eq_true]

/-- C9: the `Singleton` metaclass caches the first `Config` instance: the
first call constructs the instance from its own arguments, and every later
call returns the identical instance, its arguments (including a different
`config_file`) having no effect. -/
theorem C9_config_singleton (env : SysEnv) (a b c : String) :
    (singletonCall (singletonCall Option.none a env).2 b env).1 =
      (singletonCall Option.none a env).1 ∧
    singletonCall (singletonCall Option.none a env).2 b env =
      singletonCall (singletonCall Option.none a env).2 c env ∧
    (singletonCall Option.none a env).1 = configInit a env ∧
    (configInit a env).config_file = PyVal.str a := by
  exact ⟨rfl, rfl, rfl, rfl⟩

/-- C10: `Config.load` returns the instance unchanged when `config_file`
is `None`, and raises `IOError` — not `ConfigException` — leaving the
instance unchanged, when `config_file` names an unreadable or missing
file. -/
theorem C10_load_none_or_unreadable (cfg : Config) (fs : FileSys)
    (path : String) :
    (cfg.config_file = PyVal.none → cfg.load fs = LoadResult.ok cfg) ∧
    (cfg.config_file = PyVal.str path → fs.readable path = false →
      cfg.load fs = LoadResult.raised
        (PyError.ioError "Config file does not exist or is not readable.")
        cfg) := by
  constructor
  · intro h
    rw [Config.load, h]
  · intro h hr
    rw [Config.load, h]
    simp [pyStrOf, hr]

/-- C10 witness: a configuration pointing at an unreadable file raises
`IOError` from `load` with the instance unchanged. -/
theorem C10_witness :
    Config.load tlsTestConfig fsNothingReadable = LoadResult.raised
      (PyError.ioError "Config file does not exist or is not readable.")
      tlsTestConfig :=
  (C10_load_none_or_unreadable tlsTestConfig fsNothingReadable
    "/etc/blackhole.conf").2 rfl rfl

end Blackhole
